import Mathlib

/-!
Shallow embedding of the UVC device-information core (src/device.c of
cancercentereu/libuvc) and proofs about the descriptor parser, the device
registry, the open path and the status demultiplexer.

Modelling conventions:
- C byte buffers (unsigned char arrays) are total functions Nat to Nat; every
  read goes through lbyte, which reduces modulo 256 (an unsigned char read).
- C size_t arithmetic wraps modulo 2 to the 64; sub64 models size_t subtraction.
- Fallible or possibly undefined computations return Option: a result none
  marks a run whose outcome the C abstract machine does not determine
  (an out-of-bounds structure access, a read of an unassigned value, or the
  exhaustion of the fuel that models an unbounded loop).
- External libusb calls are modelled by oracle records holding their outcomes;
  libusb itself is outside the repository.
-/

set_option linter.unusedVariables false

namespace LibUvcModel

/-- Read of one unsigned char at offset i of a byte buffer. -/
def lbyte (b : Nat → Nat) (i : Nat) : Nat := b i % 256

/-- Modelled from the spec: the SW_TO_SHORT macro of libuvc_internal.h (header
not under src/); the spec reads a little-endian u16 from two bytes. -/
def SW_TO_SHORT (b : Nat → Nat) (i : Nat) : Nat :=
  lbyte b i + (lbyte b (i + 1)) <<< 8

/-- Modelled from the spec: the DW_TO_INT macro of libuvc_internal.h (header
not under src/); the spec reads a little-endian u32 from four bytes. -/
def DW_TO_INT (b : Nat → Nat) (i : Nat) : Nat :=
  lbyte b i + ((lbyte b (i + 1)) <<< 8) + ((lbyte b (i + 2)) <<< 16) +
    ((lbyte b (i + 3)) <<< 24)

/-- Subtraction of two size_t values: wraps modulo 2 to the 64. -/
def sub64 (a b : Nat) : Nat := (a + (2 ^ 64 - b % 2 ^ 64)) % 2 ^ 64

/-- Modelled from the spec: the uvc_error_t codes of libuvc.h (header not under
src/); the spec section 7 lists this taxonomy by name. -/
inductive uvc_error where
  | success
  | io_error
  | invalid_device
  | not_supported
  | no_device
  | no_mem
  | access
  | busy
  | pipe
  | timeout
  | interrupted
  | overflow
  | not_found
  | other
deriving DecidableEq, Repr

/-- Modelled from the spec: terminal type ITT_CAMERA is 0x0201. -/
def UVC_ITT_CAMERA : Nat := 0x0201

/-- Modelled from the spec: VideoControl descriptor subtype VC_HEADER is 1. -/
def UVC_VC_HEADER : Nat := 1

/-- Modelled from the spec: subtype VC_INPUT_TERMINAL is 2. -/
def UVC_VC_INPUT_TERMINAL : Nat := 2

/-- Modelled from the spec: subtype VC_OUTPUT_TERMINAL is 3. -/
def UVC_VC_OUTPUT_TERMINAL : Nat := 3

/-- Modelled from the spec: subtype VC_SELECTOR_UNIT is 4. -/
def UVC_VC_SELECTOR_UNIT : Nat := 4

/-- Modelled from the spec: subtype VC_PROCESSING_UNIT is 5. -/
def UVC_VC_PROCESSING_UNIT : Nat := 5

/-- Modelled from the spec: subtype VC_EXTENSION_UNIT is 6. -/
def UVC_VC_EXTENSION_UNIT : Nat := 6

/-- Modelled from the spec: VideoStreaming subtype VS_INPUT_HEADER is 1. -/
def UVC_VS_INPUT_HEADER : Nat := 1

/-- Modelled from the spec: subtype VS_FORMAT_UNCOMPRESSED is 4. -/
def UVC_VS_FORMAT_UNCOMPRESSED : Nat := 4

/-- Modelled from the spec: subtype VS_FRAME_UNCOMPRESSED is 5. -/
def UVC_VS_FRAME_UNCOMPRESSED : Nat := 5

/-- Input terminal record (struct uvc_input_terminal). -/
structure uvc_input_terminal where
  bTerminalID : Nat
  wTerminalType : Nat
  wObjectiveFocalLengthMin : Nat
  wObjectiveFocalLengthMax : Nat
  wOcularFocalLength : Nat
  bmControls : Nat
deriving DecidableEq, Repr

/-- Processing unit record (struct uvc_processing_unit). -/
structure uvc_processing_unit where
  bUnitID : Nat
  bSourceID : Nat
  bmControls : Nat
deriving DecidableEq, Repr

/-- Extension unit record (struct uvc_extension_unit). -/
structure uvc_extension_unit where
  bUnitID : Nat
  guidExtensionCode : List Nat
  bmControls : Nat
deriving DecidableEq, Repr

/-- Frame descriptor record (struct uvc_frame_desc); the intrusive list links
and the parent pointer are represented by the containing lists. -/
structure uvc_frame_desc where
  bDescriptorSubtype : Nat
  bFrameIndex : Nat
  bmCapabilities : Nat
  wWidth : Nat
  wHeight : Nat
  dwMinBitRate : Nat
  dwMaxBitRate : Nat
  dwMaxVideoFrameBufferSize : Nat
  dwDefaultFrameInterval : Nat
  dwMinFrameInterval : Nat
  dwMaxFrameInterval : Nat
  dwFrameIntervalStep : Nat
  intervals : Option (List Nat)
deriving DecidableEq, Repr

/-- Format descriptor record (struct uvc_format_desc). -/
structure uvc_format_desc where
  bDescriptorSubtype : Nat
  bFormatIndex : Nat
  guidFormat : List Nat
  bBitsPerPixel : Nat
  bDefaultFrameIndex : Nat
  bAspectRatioX : Nat
  bAspectRatioY : Nat
  bmInterlaceFlags : Nat
  bCopyProtect : Nat
  frame_descs : List uvc_frame_desc
deriving DecidableEq, Repr

/-- Streaming interface record (struct uvc_streaming_interface). -/
structure uvc_streaming_interface where
  bInterfaceNumber : Nat
  bEndpointAddress : Nat
  bTerminalLink : Nat
  format_descs : List uvc_format_desc
deriving DecidableEq, Repr

/-- VideoControl interface part of uvc_device_info (field ctrl_if). -/
structure uvc_control_interface where
  bcdUVC : Nat
  bEndpointAddress : Nat
  input_term_descs : List uvc_input_terminal
  processing_unit_descs : List uvc_processing_unit
  extension_unit_descs : List uvc_extension_unit
deriving DecidableEq, Repr

/-- Parsed capability tree of one device (struct uvc_device_info). -/
structure uvc_device_info where
  ctrl_if : uvc_control_interface
  stream_ifs : List uvc_streaming_interface
deriving DecidableEq, Repr

/-- Zero-initialised uvc_device_info, as produced by calloc in
uvc_get_device_info. -/
def uvc_device_info.empty : uvc_device_info :=
  { ctrl_if := { bcdUVC := 0, bEndpointAddress := 0, input_term_descs := [],
                 processing_unit_descs := [], extension_unit_descs := [] },
    stream_ifs := [] }

/-- USB interface altsetting descriptor: the fields of struct
libusb_interface_descriptor that device.c reads.  The extra blob is a byte
buffer together with its length. -/
structure libusb_interface_descriptor where
  bInterfaceClass : Nat
  bInterfaceSubClass : Nat
  bInterfaceNumber : Nat
  endpoints : List Nat
  extra : Nat → Nat
  extra_length : Nat

/-- USB interface: its list of altsettings (struct libusb_interface). -/
structure libusb_interface where
  altsetting : List libusb_interface_descriptor

/-- USB configuration descriptor: its interfaces (struct
libusb_config_descriptor); bNumInterfaces is the length of the list. -/
structure libusb_config_descriptor where
  interfaces : List libusb_interface

/-- Accumulation loop shared by the three controls-bitmap parsers: k steps of
bmControls = block[i] + (bmControls << 8) walking the index i downward, into a
uint64_t (hence the reduction modulo 2 to the 64 at each step). -/
def bm_fold (block : Nat → Nat) : Nat → Nat → Nat → Nat
  | 0, _, acc => acc
  | k + 1, i, acc => bm_fold block k (i - 1) ((lbyte block i + (acc <<< 8)) % 2 ^ 64)

/-- Input terminal built by uvc_parse_vc_input_terminal from a camera-type
VC_INPUT_TERMINAL block: field reads at the offsets of the source, and the
controls bitmap accumulated from index 14 + block[14] down to 15. -/
def input_terminal_from_block (block : Nat → Nat) : uvc_input_terminal :=
  { bTerminalID := lbyte block 3
    wTerminalType := SW_TO_SHORT block 4
    wObjectiveFocalLengthMin := SW_TO_SHORT block 8
    wObjectiveFocalLengthMax := SW_TO_SHORT block 10
    wOcularFocalLength := SW_TO_SHORT block 12
    bmControls := bm_fold block (lbyte block 14) (14 + lbyte block 14) 0 }

/-- Embedding of uvc_parse_vc_input_terminal.  A non-camera terminal type hits
a plain return statement carrying no value although the C function returns
uvc_error_t: the first component none records that no return value was
produced (the caller reads an indeterminate value). -/
def uvc_parse_vc_input_terminal (info : uvc_device_info) (block : Nat → Nat)
    (block_size : Nat) : Option uvc_error × uvc_device_info :=
  if SW_TO_SHORT block 4 ≠ UVC_ITT_CAMERA then
    (none, info)
  else
    (some .success,
      { info with ctrl_if :=
          { info.ctrl_if with input_term_descs :=
              info.ctrl_if.input_term_descs ++ [input_terminal_from_block block] } })

/-- Processing unit built by uvc_parse_vc_processing_unit: id at 3, source at
4, controls bitmap accumulated from index 7 + block[7] down to 8. -/
def processing_unit_from_block (block : Nat → Nat) : uvc_processing_unit :=
  { bUnitID := lbyte block 3
    bSourceID := lbyte block 4
    bmControls := bm_fold block (lbyte block 7) (7 + lbyte block 7) 0 }

/-- Embedding of uvc_parse_vc_processing_unit. -/
def uvc_parse_vc_processing_unit (info : uvc_device_info) (block : Nat → Nat)
    (block_size : Nat) : uvc_error × uvc_device_info :=
  (.success,
    { info with ctrl_if :=
        { info.ctrl_if with processing_unit_descs :=
            info.ctrl_if.processing_unit_descs ++ [processing_unit_from_block block] } })

/-- Extension unit built by uvc_parse_vc_extension_unit: id at 3, GUID bytes
4..19, pin count p at 21, controls length s at 22 + p, controls bytes walked
from start_of_controls[s-1] (block index 22 + p + s) down to
start_of_controls[0] (block index 23 + p). -/
def extension_unit_from_block (block : Nat → Nat) : uvc_extension_unit :=
  let num_in_pins := lbyte block 21
  let size_of_controls := lbyte block (22 + num_in_pins)
  { bUnitID := lbyte block 3
    guidExtensionCode := (List.range 16).map fun j => lbyte block (4 + j)
    bmControls := bm_fold block size_of_controls (22 + num_in_pins + size_of_controls) 0 }

/-- Embedding of uvc_parse_vc_extension_unit. -/
def uvc_parse_vc_extension_unit (info : uvc_device_info) (block : Nat → Nat)
    (block_size : Nat) : uvc_error × uvc_device_info :=
  (.success,
    { info with ctrl_if :=
        { info.ctrl_if with extension_unit_descs :=
            info.ctrl_if.extension_unit_descs ++ [extension_unit_from_block block] } })

/-- Embedding of uvc_parse_vs_input_header: endpoint address is block[6]
masked with 0x8f, terminal link is block[8]. -/
def uvc_parse_vs_input_header (stream_if : uvc_streaming_interface)
    (block : Nat → Nat) (block_size : Nat) : uvc_error × uvc_streaming_interface :=
  (.success,
    { stream_if with
        bEndpointAddress := lbyte block 6 &&& 0x8f
        bTerminalLink := lbyte block 8 })

/-- Format descriptor built by uvc_parse_vs_format_uncompressed; the GUID is
copied from offset 5 as in the source. -/
def format_from_block (block : Nat → Nat) : uvc_format_desc :=
  { bDescriptorSubtype := lbyte block 2
    bFormatIndex := lbyte block 3
    guidFormat := (List.range 16).map fun j => lbyte block (5 + j)
    bBitsPerPixel := lbyte block 21
    bDefaultFrameIndex := lbyte block 22
    bAspectRatioX := lbyte block 23
    bAspectRatioY := lbyte block 24
    bmInterlaceFlags := lbyte block 25
    bCopyProtect := lbyte block 26
    frame_descs := [] }

/-- Embedding of uvc_parse_vs_format_uncompressed. -/
def uvc_parse_vs_format_uncompressed (stream_if : uvc_streaming_interface)
    (block : Nat → Nat) (block_size : Nat) : uvc_error × uvc_streaming_interface :=
  (.success, { stream_if with format_descs := stream_if.format_descs ++ [format_from_block block] })

/-- Frame descriptor built by uvc_parse_vs_frame_uncompressed.  The struct
comes from calloc, so every field the branch does not assign stays 0 (the
continuous triple in the discrete branch) or null (the intervals table in the
continuous branch).  With n = block[25] greater than 0 the table holds the n
little-endian u32 values read from offset 26 stepping by 4, then a 0
sentinel. -/
def frame_from_block (block : Nat → Nat) : uvc_frame_desc :=
  { bDescriptorSubtype := lbyte block 2
    bFrameIndex := lbyte block 3
    bmCapabilities := lbyte block 4
    wWidth := lbyte block 5 + ((lbyte block 6) <<< 8)
    wHeight := lbyte block 7 + ((lbyte block 8) <<< 8)
    dwMinBitRate := DW_TO_INT block 9
    dwMaxBitRate := DW_TO_INT block 13
    dwMaxVideoFrameBufferSize := DW_TO_INT block 17
    dwDefaultFrameInterval := DW_TO_INT block 21
    dwMinFrameInterval := if lbyte block 25 = 0 then DW_TO_INT block 26 else 0
    dwMaxFrameInterval := if lbyte block 25 = 0 then DW_TO_INT block 30 else 0
    dwFrameIntervalStep := if lbyte block 25 = 0 then DW_TO_INT block 34 else 0
    intervals :=
      if lbyte block 25 = 0 then none
      else some (((List.range (lbyte block 25)).map fun j => DW_TO_INT block (26 + 4 * j)) ++ [0]) }

/-- Embedding of uvc_parse_vs_frame_uncompressed.  The frame attaches to
format_descs.prev, the last format appended to this interface; when no format
exists that dereference of a null head is undefined behaviour, here none. -/
def uvc_parse_vs_frame_uncompressed (stream_if : uvc_streaming_interface)
    (block : Nat → Nat) (block_size : Nat) : Option (uvc_error × uvc_streaming_interface) :=
  match stream_if.format_descs.getLast? with
  | none => none
  | some format =>
    some (.success,
      { stream_if with format_descs :=
          stream_if.format_descs.dropLast ++
            [{ format with frame_descs := format.frame_descs ++ [frame_from_block block] }] })

/-- Embedding of uvc_parse_vs: dispatch on the descriptor subtype block[2];
unknown subtypes are skipped silently. -/
def uvc_parse_vs (stream_if : uvc_streaming_interface) (block : Nat → Nat)
    (block_size : Nat) : Option (uvc_error × uvc_streaming_interface) :=
  if lbyte block 2 = UVC_VS_INPUT_HEADER then
    some (uvc_parse_vs_input_header stream_if block block_size)
  else if lbyte block 2 = UVC_VS_FORMAT_UNCOMPRESSED then
    some (uvc_parse_vs_format_uncompressed stream_if block block_size)
  else if lbyte block 2 = UVC_VS_FRAME_UNCOMPRESSED then
    uvc_parse_vs_frame_uncompressed stream_if block block_size
  else
    some (.success, stream_if)

/-- TLV walk of uvc_scan_streaming over the extra blob of the streaming
altsetting: while at least 3 bytes remain, read block_size = buffer[0],
dispatch to uvc_parse_vs, advance the pointer by block_size and decrement the
size_t byte count with wraparound.  The fuel bounds the number of iterations;
none means the walk did not finish within the fuel. -/
def uvc_scan_streaming_loop (fuel : Nat) (stream_if : uvc_streaming_interface)
    (buffer : Nat → Nat) (buffer_left : Nat) : Option (uvc_error × uvc_streaming_interface) :=
  match fuel with
  | 0 => none
  | fuel + 1 =>
    if buffer_left < 3 then some (.success, stream_if)
    else
      let block_size := lbyte buffer 0
      match uvc_parse_vs stream_if buffer block_size with
      | none => none
      | some (parse_ret, stream_if1) =>
        if parse_ret ≠ .success then some (parse_ret, stream_if1)
        else
          uvc_scan_streaming_loop fuel stream_if1
            (fun i => buffer (block_size + i)) (sub64 buffer_left block_size)

/-- Embedding of uvc_scan_streaming: index the configuration with the
interface number taken from the header block (no bounds check in the source:
an out-of-range index or an interface without altsettings is undefined
behaviour, here none), append a fresh streaming interface to the info, then
walk the extra blob of altsetting 0. -/
def uvc_scan_streaming (fuel : Nat) (config : libusb_config_descriptor)
    (info : uvc_device_info) (interface_idx : Nat) : Option (uvc_error × uvc_device_info) :=
  match config.interfaces.get? interface_idx with
  | none => none
  | some intf =>
    match intf.altsetting.head? with
    | none => none
    | some if_desc =>
      let stream_if : uvc_streaming_interface :=
        { bInterfaceNumber := if_desc.bInterfaceNumber, bEndpointAddress := 0,
          bTerminalLink := 0, format_descs := [] }
      match uvc_scan_streaming_loop fuel stream_if if_desc.extra if_desc.extra_length with
      | none => none
      | some (ret, stream_if1) =>
        some (ret, { info with stream_ifs := info.stream_ifs ++ [stream_if1] })

/-- Loop of uvc_parse_vc_header over the streaming-interface indices at block
offsets 12 .. block_size - 1: rem counts the remaining offsets (for index i
the caller passes rem = block_size - i), so the recursion is structural. -/
def uvc_parse_vc_header_loop (fuel : Nat) (config : libusb_config_descriptor)
    (block : Nat → Nat) : Nat → Nat → uvc_device_info → Option (uvc_error × uvc_device_info)
  | _, 0, info => some (.success, info)
  | i, rem + 1, info =>
    match uvc_scan_streaming fuel config info (lbyte block i) with
    | none => none
    | some (scan_ret, info1) =>
      if scan_ret ≠ .success then some (scan_ret, info1)
      else uvc_parse_vc_header_loop fuel config block (i + 1) rem info1

/-- Embedding of uvc_parse_vc_header: record bcdUVC from the little-endian u16
at offset 3, accept only the versions 0x0100, 0x010a, 0x0110 (anything else
returns NOT_SUPPORTED), then scan the streaming interfaces listed from offset
12 to the end of the block. -/
def uvc_parse_vc_header (fuel : Nat) (config : libusb_config_descriptor)
    (info : uvc_device_info) (block : Nat → Nat) (block_size : Nat) :
    Option (uvc_error × uvc_device_info) :=
  let bcd := SW_TO_SHORT block 3
  let info1 : uvc_device_info := { info with ctrl_if := { info.ctrl_if with bcdUVC := bcd } }
  if bcd = 0x0100 ∨ bcd = 0x010a ∨ bcd = 0x0110 then
    uvc_parse_vc_header_loop fuel config block 12 (block_size - 12) info1
  else
    some (.not_supported, info1)

/-- Embedding of uvc_parse_vc: a block whose byte 1 is not 36 (CS_INTERFACE)
is ignored with success; otherwise dispatch on the subtype byte 2.  The first
component of the result pair is the returned uvc_error_t, none when the
callee produced no return value (the non-camera input-terminal path). -/
def uvc_parse_vc (fuel : Nat) (config : libusb_config_descriptor)
    (info : uvc_device_info) (block : Nat → Nat) (block_size : Nat) :
    Option (Option uvc_error × uvc_device_info) :=
  if lbyte block 1 ≠ 36 then some (some .success, info)
  else if lbyte block 2 = UVC_VC_HEADER then
    match uvc_parse_vc_header fuel config info block block_size with
    | none => none
    | some (e, info1) => some (some e, info1)
  else if lbyte block 2 = UVC_VC_INPUT_TERMINAL then
    some (uvc_parse_vc_input_terminal info block block_size)
  else if lbyte block 2 = UVC_VC_OUTPUT_TERMINAL then
    some (some .success, info)
  else if lbyte block 2 = UVC_VC_SELECTOR_UNIT then
    some (some .success, info)
  else if lbyte block 2 = UVC_VC_PROCESSING_UNIT then
    let r := uvc_parse_vc_processing_unit info block block_size
    some (some r.1, r.2)
  else if lbyte block 2 = UVC_VC_EXTENSION_UNIT then
    let r := uvc_parse_vc_extension_unit info block block_size
    some (some r.1, r.2)
  else
    some (some .invalid_device, info)

/-- TLV walk of uvc_scan_control over the extra blob of the VideoControl
altsetting, mirroring uvc_scan_streaming_loop.  A parse result that carries no
value (the valueless return observed through uvc_parse_vc) makes the loop
condition indeterminate: the overall outcome is none. -/
def uvc_scan_control_loop (fuel : Nat) (config : libusb_config_descriptor)
    (info : uvc_device_info) (buffer : Nat → Nat) (buffer_left : Nat) :
    Option (uvc_error × uvc_device_info) :=
  match fuel with
  | 0 => none
  | fuel + 1 =>
    if buffer_left < 3 then some (.success, info)
    else
      let block_size := lbyte buffer 0
      match uvc_parse_vc fuel config info buffer block_size with
      | none => none
      | some (none, _) => none
      | some (some parse_ret, info1) =>
        if parse_ret ≠ .success then some (parse_ret, info1)
        else
          uvc_scan_control_loop fuel config info1
            (fun i => buffer (block_size + i)) (sub64 buffer_left block_size)

/-- Search of uvc_scan_control for the first interface whose altsetting 0 has
class 14 and subclass 1; the source reads altsetting[0] of every interface it
passes, so an interface without altsettings is undefined behaviour (outer
none).  The inner none means no VideoControl interface was found. -/
def find_vc_interface : List libusb_interface → Option (Option libusb_interface_descriptor)
  | [] => some none
  | intf :: rest =>
    match intf.altsetting.head? with
    | none => none
    | some if_desc =>
      if if_desc.bInterfaceClass = 14 ∧ if_desc.bInterfaceSubClass = 1 then some (some if_desc)
      else find_vc_interface rest

/-- Embedding of uvc_scan_control: find the VideoControl interface (none found
is INVALID_DEVICE), record the interrupt endpoint address when the altsetting
has endpoints, then walk the extra blob. -/
def uvc_scan_control (fuel : Nat) (config : libusb_config_descriptor)
    (info : uvc_device_info) : Option (uvc_error × uvc_device_info) :=
  match find_vc_interface config.interfaces with
  | none => none
  | some none => some (.invalid_device, info)
  | some (some if_desc) =>
    let info1 : uvc_device_info :=
      if if_desc.endpoints.length ≠ 0 then
        { info with ctrl_if := { info.ctrl_if with bEndpointAddress := if_desc.endpoints.headD 0 } }
      else info
    uvc_scan_control_loop fuel config info1 if_desc.extra if_desc.extra_length

/-- Embedding of uvc_get_device_info: allocate a zeroed info, fetch config
descriptor 0 (failure returns IO and frees the info), run uvc_scan_control
(failure frees the info and propagates).  The argument configRes is the
outcome of the external libusb_get_config_descriptor call: none models its
failure. -/
def uvc_get_device_info (fuel : Nat) (configRes : Option libusb_config_descriptor) :
    Option (Except uvc_error uvc_device_info) :=
  match configRes with
  | none => some (.error .io_error)
  | some config =>
    match uvc_scan_control fuel config uvc_device_info.empty with
    | none => none
    | some (ret, info) =>
      if ret ≠ .success then some (.error ret) else some (.ok info)

/-- Modelled from the spec: the enum uvc_status_class of libuvc.h (header not
under src/); the code assigns CONTROL_CAMERA or CONTROL_PROCESSING. -/
inductive uvc_status_class where
  | control
  | control_camera
  | control_processing
  | streaming
deriving DecidableEq, Repr

/-- Arguments with which uvc_process_status_xfer invokes the user status
callback.  status_class is none when the callback fires with the local enum
variable never assigned (the C value is indeterminate); attribute is none
while it still holds its initialiser UVC_STATUS_ATTRIBUTE_UNKNOWN; data is
none while it still holds its initialiser NULL. -/
structure status_cb_invocation where
  status_class : Option uvc_status_class
  event : Nat
  selector : Nat
  attr : Option Nat
  data : Option (List Nat)
  data_len : Nat
deriving DecidableEq, Repr

/-- Embedding of uvc_process_status_xfer.  The transfer buffer is a byte
function and actual_length the number of bytes received; the result is none
when the function returns without invoking the callback, and some invocation
otherwise.  The C local named attribute is the field attr (attribute is a
reserved word here).  The switch on the low nibble of byte 0 is modelled by the if
chain (cases 1 and 2, fall-through for every other nibble). -/
def uvc_process_status_xfer (info : uvc_device_info) (buffer : Nat → Nat)
    (actual_length : Nat) : Option status_cb_invocation :=
  if actual_length < 4 then none
  else
    -- the locals originator, event and selector of the source are written out
    -- as their defining byte reads: originator byte 1, event byte 2, selector
    -- byte 3
    if (lbyte buffer 0) &&& 0x0f = 1 then
      -- VideoControl interface
      if actual_length < 5 then none
      else
        if lbyte buffer 1 = 0 then none
        else if lbyte buffer 2 ≠ 0 then none
        else
          match info.ctrl_if.input_term_descs.find?
              (fun input_terminal => input_terminal.bTerminalID == lbyte buffer 1) with
          | some _ =>
            some { status_class := some .control_camera, event := lbyte buffer 2,
                   selector := lbyte buffer 3, attr := some (lbyte buffer 4),
                   data := some ((List.range (actual_length - 5)).map fun j => lbyte buffer (5 + j)),
                   data_len := actual_length - 5 }
          | none =>
            match info.ctrl_if.processing_unit_descs.find?
                (fun processing_unit => processing_unit.bUnitID == lbyte buffer 1) with
            | some _ =>
              some { status_class := some .control_processing, event := lbyte buffer 2,
                     selector := lbyte buffer 3, attr := some (lbyte buffer 4),
                     data := some ((List.range (actual_length - 5)).map fun j => lbyte buffer (5 + j)),
                     data_len := actual_length - 5 }
            | none => none
    else if (lbyte buffer 0) &&& 0x0f = 2 then
      -- VideoStreaming interface: dropped
      none
    else
      -- no switch case matched: fall through to the callback with the locals
      -- still holding their initialisers, status_class never assigned
      some { status_class := none, event := 0, selector := 0, attr := none,
             data := none, data_len := 0 }

/-- Transfer status values of the external libusb transfer that
_uvc_status_callback switches on. -/
inductive libusb_transfer_status where
  | completed
  | error
  | timed_out
  | cancelled
  | stall
  | no_device
  | overflow
deriving DecidableEq, Repr

/-- Embedding of _uvc_status_callback: the first component is the packet
processing performed (the callback invocation uvc_process_status_xfer decided
on, none when it was not called or invoked nothing), the second whether the
transfer was resubmitted.  ERROR, CANCELLED and NO_DEVICE return before the
resubmission; COMPLETED processes then falls out of the switch to the
resubmission; the remaining statuses match no case and are resubmitted
without processing. -/
def _uvc_status_callback (info : uvc_device_info) (buffer : Nat → Nat)
    (actual_length : Nat) (status : libusb_transfer_status) :
    Option status_cb_invocation × Bool :=
  match status with
  | .error => (none, false)
  | .cancelled => (none, false)
  | .no_device => (none, false)
  | .completed => (uvc_process_status_xfer info buffer actual_length, true)
  | _ => (none, true)

/-- USB device as seen by uvc_get_device_list: the outcome of its
libusb_get_config_descriptor call (none models the fetch failing, which
skips the device). -/
structure usb_device where
  config : Option libusb_config_descriptor

/-- Device entry built by uvc_get_device_list: the local reference count and
the wrapped USB device. -/
structure uvc_device_entry where
  ref : Nat
  usb_dev : usb_device

/-- Filter of uvc_get_device_list: some interface e altsetting pair has
bInterfaceClass 14 and bInterfaceSubClass 2 (Video, Streaming); the nested
for loops with the got_interface flag compute exactly this. -/
def usb_dev_matches_uvc (config : libusb_config_descriptor) : Bool :=
  config.interfaces.any fun intf =>
    intf.altsetting.any fun if_desc =>
      if_desc.bInterfaceClass == 14 && if_desc.bInterfaceSubClass == 2

/-- Embedding of uvc_get_device_list.  enumRes is the ssize_t returned by the
external libusb_get_device_list and usb_dev_list the enumerated array (set
only when enumRes is non-negative).  The source stores enumRes into a size_t
local, so its comparison with 0 is the always-false unsigned comparison kept
here verbatim; when the enumeration failed the subsequent walk reads the
never-assigned list pointer, which is undefined behaviour (none).  Matching
devices are wrapped with ref 0 then passed to uvc_ref_device. -/
def uvc_get_device_list (enumRes : Int) (usb_dev_list : List usb_device) :
    Option (Except uvc_error (List uvc_device_entry)) :=
  let num_usb_devices : Nat := (enumRes.emod (2 ^ 64)).toNat
  if num_usb_devices < 0 then some (.error .io_error)
  else if enumRes < 0 then none
  else
    some (.ok (usb_dev_list.filterMap fun usb_dev =>
      match usb_dev.config with
      | none => none
      | some config =>
        if usb_dev_matches_uvc config then
          let uvc_dev : uvc_device_entry := { ref := 0, usb_dev := usb_dev }
          -- uvc_ref_device increments the local count (and the libusb count)
          some { uvc_dev with ref := uvc_dev.ref + 1 }
        else none))

/-- Opened device handle: the fields of struct uvc_device_handle the claims
observe (the capability tree and the isight quirk flag). -/
structure uvc_device_handle where
  info : uvc_device_info
  is_isight : Bool
deriving DecidableEq, Repr

/-- Context and device state that uvc_open reads and writes: the open_devices
list of the context and the local reference count of the device. -/
structure uvc_context_state where
  open_devices : List uvc_device_handle
  devRef : Nat
deriving DecidableEq, Repr

/-- Cleanup calls of the fail path of uvc_open, in source order. -/
inductive open_fail_action where
  | release_ifs
  | close_usb
  | unref_device
  | free_devh
deriving DecidableEq, Repr

/-- Fail path of uvc_open: uvc_release_ifs, libusb_close, uvc_unref_device,
uvc_free_devh. -/
def open_fail_cleanup : List open_fail_action :=
  [.release_ifs, .close_usb, .unref_device, .free_devh]

/-- Outcomes of the external calls uvc_open performs, in order: libusb_open,
libusb_get_config_descriptor (consumed inside uvc_get_device_info, none is
failure), uvc_claim_ifs (whose body is only libusb calls: modelled by its
returned error), the plain device descriptor ids read for the isight quirk,
libusb_alloc_transfer (false is allocation failure) and
libusb_submit_transfer.  The fuel feeds the descriptor walk. -/
structure uvc_open_env where
  openRes : uvc_error
  configRes : Option libusb_config_descriptor
  claimRes : uvc_error
  idVendor : Nat
  idProduct : Nat
  allocOk : Bool
  submitRes : uvc_error
  fuel : Nat

/-- Embedding of uvc_open.  The result carries the returned error, the
post-state, the published handle (none unless the open succeeded) and the
cleanup calls executed.  Every failure after libusb_open succeeded goes
through the fail label: release interfaces, close the USB handle, unref the
device, free the partially built handle. -/
def uvc_open (env : uvc_open_env) (st : uvc_context_state) :
    Option (uvc_error × uvc_context_state × Option uvc_device_handle × List open_fail_action) :=
  if env.openRes ≠ .success then some (env.openRes, st, none, [])
  else
    -- uvc_ref_device(dev)
    let st1 : uvc_context_state := { st with devRef := st.devRef + 1 }
    -- goto fail: uvc_release_ifs, libusb_close, uvc_unref_device, uvc_free_devh
    let fail := fun (e : uvc_error) =>
      some (e, { st1 with devRef := st1.devRef - 1 },
        (none : Option uvc_device_handle), open_fail_cleanup)
    match uvc_get_device_info env.fuel env.configRes with
    | none => none
    | some (.error e) => fail e
    | some (.ok info) =>
      if env.claimRes ≠ .success then fail env.claimRes
      else
        let devh : uvc_device_handle :=
          { info := info,
            is_isight := env.idVendor == 0x05ac && env.idProduct == 0x8501 }
        let finish :=
          some ((.success : uvc_error),
            { st1 with open_devices := st1.open_devices ++ [devh] }, some devh,
            ([] : List open_fail_action))
        if info.ctrl_if.bEndpointAddress ≠ 0 then
          if env.allocOk = false then fail .no_mem
          else if env.submitRes ≠ .success then fail env.submitRes
          else finish
        else finish

/-- Whitelist of supported bcdUVC versions named by the spec. -/
def bcdUVC_whitelist : List Nat := [0x0100, 0x010a, 0x0110]

/-- Specification-side description of the controls-bitmap accumulation, taken
from the words of the spec: iterate over the bytes from the last one down to
the first, each step bmControls = (bmControls shifted left by 8) bitor byte.
This is the definition the code accumulator is compared against. -/
def controls_spec_fold (bytes : List Nat) : Nat :=
  bytes.foldr (fun b acc => (acc <<< 8) ||| b) 0

/-- Invariant of the version check: bcdUVC is still its zero initialiser or
belongs to the whitelist. -/
def bcd_ok (info : uvc_device_info) : Prop :=
  info.ctrl_if.bcdUVC = 0 ∨ info.ctrl_if.bcdUVC ∈ bcdUVC_whitelist

/-- Byte buffer holding the bytes of a list, 0 beyond its end. -/
def bufOfList (l : List Nat) : Nat → Nat := fun i => l.getD i 0

/-- Byte buffer that reads 0 everywhere. -/
def buf_zeros : Nat → Nat := fun _ => 0

/-- VideoControl altsetting whose extra blob is the three zero bytes
0x00 0x00 0x00: its first TLV block advertises block_size 0. -/
def vc_if_zero_tlv : libusb_interface_descriptor :=
  { bInterfaceClass := 14, bInterfaceSubClass := 1, bInterfaceNumber := 0,
    endpoints := [], extra := buf_zeros, extra_length := 3 }

/-- Configuration exposing only vc_if_zero_tlv. -/
def cfg_zero_tlv : libusb_config_descriptor :=
  { interfaces := [{ altsetting := [vc_if_zero_tlv] }] }

/-- Configuration whose VideoControl altsetting has an empty extra blob: the
descriptor walk parses no block at all, in particular no VC_HEADER. -/
def cfg_no_header : libusb_config_descriptor :=
  { interfaces := [{ altsetting := [{ vc_if_zero_tlv with extra_length := 0 }] }] }

/-- VC_INPUT_TERMINAL block whose wTerminalType at offset 4 is 0x0202, not
ITT_CAMERA. -/
def block_noncamera : Nat → Nat := bufOfList [13, 36, 2, 2, 0x02, 0x02]

/-- VC_HEADER block advertising bcdUVC 0x0200 (little-endian bytes 0x00 0x02
at offsets 3 and 4), outside the whitelist. -/
def block_bad_header : Nat → Nat := bufOfList [13, 36, 1, 0x00, 0x02]

/-- Camera input-terminal block with id 1, wTerminalType 0x0201, controls
bitmap length 2 at offset 14 and controls bytes 0x01 0x02 at offsets 15, 16. -/
def block_controls_ex : Nat → Nat :=
  bufOfList [18, 36, 2, 1, 0x01, 0x02, 0, 0, 0, 0, 0, 0, 0, 0, 2, 0x01, 0x02, 0]

/-- VS_FRAME_UNCOMPRESSED block with bFrameIntervalType block[25] = 3 and the
discrete intervals 333333, 400000, 500000 as little-endian u32 from offset
26. -/
def block_frame_discrete : Nat → Nat :=
  bufOfList (List.replicate 25 0 ++ [3] ++
    [0x15, 0x16, 0x05, 0x00] ++ [0x80, 0x1a, 0x06, 0x00] ++ [0x20, 0xa1, 0x07, 0x00])

/-- Streaming interface already holding one format, so a frame block has a
format to attach to. -/
def sif_one_format : uvc_streaming_interface :=
  { bInterfaceNumber := 1, bEndpointAddress := 0, bTerminalLink := 0,
    format_descs := [format_from_block buf_zeros] }

/-- Capability tree holding the two camera input terminals with ids 1 and 2
of the status-dispatch scenario of the spec. -/
def info_two_terminals : uvc_device_info :=
  { uvc_device_info.empty with ctrl_if :=
      { uvc_device_info.empty.ctrl_if with input_term_descs :=
          [{ bTerminalID := 1, wTerminalType := 0x0201, wObjectiveFocalLengthMin := 0,
             wObjectiveFocalLengthMax := 0, wOcularFocalLength := 0, bmControls := 0 },
           { bTerminalID := 2, wTerminalType := 0x0201, wObjectiveFocalLengthMin := 0,
             wObjectiveFocalLengthMax := 0, wOcularFocalLength := 0, bmControls := 0 }] } }

/-- Status packet 01 02 00 05 AA DD EE of the spec scenario: class 1,
originator 2, event 0, selector 5, attribute 0xAA, payload DD EE. -/
def status_packet_ex : Nat → Nat :=
  bufOfList [0x01, 0x02, 0x00, 0x05, 0xaa, 0xdd, 0xee]

/-- Status packet whose low nibble of byte 0 is 3: matches no switch case. -/
def status_packet_class3 : Nat → Nat := bufOfList [0x03, 0, 0, 0]

/-- Initial context state of the open-path scenarios: no open devices, the
device holding one caller reference. -/
def st0 : uvc_context_state := { open_devices := [], devRef := 1 }

/-- Oracle for an open in which building the device info fails: the config
descriptor fetch reports failure, everything external succeeds. -/
def env_fail_info : uvc_open_env :=
  { openRes := .success, configRes := none, claimRes := .success, idVendor := 0,
    idProduct := 0, allocOk := true, submitRes := .success, fuel := 0 }

/-- Oracle for an open of the device whose VideoControl extra blob is empty:
every external call succeeds and the parse sees no VC_HEADER block. -/
def env_no_header : uvc_open_env :=
  { openRes := .success, configRes := some cfg_no_header, claimRes := .success,
    idVendor := 0, idProduct := 0, allocOk := true, submitRes := .success, fuel := 1 }

/-- Handle produced by a successful open of the no-header device: the
capability tree stays zero-initialised. -/
def devh_empty : uvc_device_handle :=
  { info := uvc_device_info.empty, is_isight := false }

/-- Result of uvc_open env_fail_info st0, named for the rollback witness. -/
def open_fail_result :
    uvc_error × uvc_context_state × Option uvc_device_handle × List open_fail_action :=
  (.io_error, st0, none, open_fail_cleanup)

/-! Helper lemmas. -/

theorem lbyte_lt (b : Nat → Nat) (i : Nat) : lbyte b i < 256 :=
  Nat.mod_lt _ (by norm_num)

/-- One iteration of the control TLV walk on the all-zeros buffer returns to
the same state: block_size is 0, uvc_parse_vc sees byte 1 equal to 0 (not 36)
and succeeds without touching the info, the pointer and the remaining count
do not move. -/
theorem scan_control_loop_zero_step (n : Nat) (config : libusb_config_descriptor)
    (info : uvc_device_info) :
    uvc_scan_control_loop (n + 1) config info (fun _ => 0) 3 =
      uvc_scan_control_loop n config info (fun _ => 0) 3 := by
  show (if (3 : Nat) < 3 then _ else _) = _
  rw [if_neg (by norm_num)]
  have h0 : lbyte (fun _ => (0 : Nat)) 0 = 0 := rfl
  have hparse : uvc_parse_vc n config info (fun _ => 0) 0 = some (some .success, info) := by
    unfold uvc_parse_vc
    rw [if_pos (by norm_num [lbyte])]
  have hleft : sub64 3 0 = 3 := by decide
  simp only [h0, hparse, hleft, ne_eq, not_true_eq_false, if_false, Nat.zero_add]

theorem scan_control_loop_zero_diverges (fuel : Nat) (config : libusb_config_descriptor)
    (info : uvc_device_info) :
    uvc_scan_control_loop fuel config info (fun _ => 0) 3 = none := by
  induction fuel with
  | zero => rfl
  | succ n ih => rw [scan_control_loop_zero_step n config info]; exact ih

/-! Claim theorems. -/

/-- C1: the claim says the TLV walk of uvc_scan_control terminates for every
extra buffer and stops cleanly exactly when fewer than 3 bytes remain.  The
code violates this: on the 3-byte all-zeros extra blob the first block
advertises block_size = buffer[0] = 0, uvc_parse_vc succeeds without consuming
anything (byte 1 is not 36), and the walk repeats the same iteration forever.
This theorem evaluates the code at that failing input: for every fuel bound
the walk fails to finish, which is divergence of the unbounded C loop. -/
theorem scan_control_zero_size_block_never_terminates :
    ∀ fuel : Nat, uvc_scan_control fuel cfg_zero_tlv uvc_device_info.empty = none := by
  intro fuel
  show uvc_scan_control_loop fuel cfg_zero_tlv uvc_device_info.empty (fun _ => 0) 3 = none
  exact scan_control_loop_zero_diverges fuel cfg_zero_tlv uvc_device_info.empty

/-- C4: the claim says a VC_INPUT_TERMINAL block whose wTerminalType is not
ITT_CAMERA makes uvc_parse_vc_input_terminal add no record and return
UVC_SUCCESS.  The code adds no record but executes a plain return statement
with no value although its return type is uvc_error_t, so the caller observes
an indeterminate value rather than UVC_SUCCESS: at the concrete non-camera
block the result carries no return value (none) and the info is unchanged. -/
theorem parse_vc_input_terminal_noncamera_returns_no_value :
    uvc_parse_vc_input_terminal uvc_device_info.empty block_noncamera 13 =
      (none, uvc_device_info.empty) ∧
    (none : Option uvc_error) ≠ some .success := by
  exact ⟨by decide, by decide⟩

/-- C5: the claim says uvc_get_device_list returns the IO error if and only
if the initial USB enumeration fails.  The code stores the ssize_t result of
the enumeration into a size_t variable, so its comparison with 0 is always
false: when the enumeration fails (result -1) the IO error is never returned
and the walk reads the never-assigned device-list pointer instead (undefined
behaviour, modelled none). -/
theorem get_device_list_enum_failure_not_io :
    uvc_get_device_list (-1) [] = none ∧
    ∀ l : List uvc_device_entry, uvc_get_device_list (-1) [] ≠ some (.ok l) ∧
      uvc_get_device_list (-1) [] ≠ some (.error .io_error) := by
  refine ⟨rfl, fun l => ⟨?_, ?_⟩⟩ <;> rw [show uvc_get_device_list (-1) [] = none from rfl] <;>
    exact fun h => Option.noConfusion h

/-- C9: for every interrupt-transfer completion, a transfer whose status is
ERROR, CANCELLED or NO_DEVICE is never resubmitted (and the packet is not
processed), while a COMPLETED transfer is processed by
uvc_process_status_xfer and then resubmitted. -/
theorem status_callback_resubmit_policy :
    ∀ (info : uvc_device_info) (buffer : Nat → Nat) (actual_length : Nat),
      _uvc_status_callback info buffer actual_length .error = (none, false) ∧
      _uvc_status_callback info buffer actual_length .cancelled = (none, false) ∧
      _uvc_status_callback info buffer actual_length .no_device = (none, false) ∧
      _uvc_status_callback info buffer actual_length .completed =
        (uvc_process_status_xfer info buffer actual_length, true) := by
  intro info buffer actual_length
  exact ⟨rfl, rfl, rfl, rfl⟩

/-- C10: a status packet of length at least 4 whose status-class tag (the low
nibble of byte 0) is neither 1 nor 2 falls through the switch of
uvc_process_status_xfer and still invokes the user callback, with the local
status_class never assigned (an indeterminate value, modelled none), event 0,
selector 0, attribute still UNKNOWN, data still NULL and data_len 0. -/
theorem status_xfer_unknown_class_falls_through :
    ∀ (info : uvc_device_info) (buffer : Nat → Nat) (actual_length : Nat),
      4 ≤ actual_length →
      (lbyte buffer 0) &&& 0x0f ≠ 1 →
      (lbyte buffer 0) &&& 0x0f ≠ 2 →
      uvc_process_status_xfer info buffer actual_length =
        some { status_class := none, event := 0, selector := 0, attr := none,
               data := none, data_len := 0 } := by
  intro info buffer actual_length h4 h1 h2
  unfold uvc_process_status_xfer
  rw [if_neg (by omega), if_neg h1, if_neg h2]

/-- Witness for C10: the concrete class-3 packet 03 00 00 00 of length 4
invokes the callback with the never-assigned status class. -/
theorem status_xfer_unknown_class_witness :
    uvc_process_status_xfer uvc_device_info.empty status_packet_class3 4 =
      some { status_class := none, event := 0, selector := 0, attr := none,
             data := none, data_len := 0 } :=
  status_xfer_unknown_class_falls_through uvc_device_info.empty status_packet_class3 4
    (by norm_num) (by decide) (by decide)

/-- C2: dispatch behaviour of uvc_process_status_xfer.  A packet shorter than
4 bytes invokes no callback; a class-1 packet shorter than 5 bytes, or with
originator byte 1 zero, or with event byte 2 nonzero, or whose originator
matches no retained input terminal or processing unit, invokes no callback;
and a class-1 packet passing those guards whose originator equals the
bTerminalID of a retained input terminal invokes the callback with status
class CONTROL_CAMERA, event byte 2, selector byte 3, attribute byte 4, the
payload bytes 5 .. actual_length and data_len = actual_length - 5. -/
theorem process_status_xfer_class1_dispatch :
    ∀ (info : uvc_device_info) (buffer : Nat → Nat) (actual_length : Nat),
      (actual_length < 4 → uvc_process_status_xfer info buffer actual_length = none) ∧
      ((lbyte buffer 0) &&& 0x0f = 1 →
        ((actual_length < 5 ∨ lbyte buffer 1 = 0 ∨ lbyte buffer 2 ≠ 0 ∨
          ((∀ t ∈ info.ctrl_if.input_term_descs, t.bTerminalID ≠ lbyte buffer 1) ∧
           (∀ u ∈ info.ctrl_if.processing_unit_descs, u.bUnitID ≠ lbyte buffer 1))) →
          uvc_process_status_xfer info buffer actual_length = none) ∧
        (5 ≤ actual_length → lbyte buffer 1 ≠ 0 → lbyte buffer 2 = 0 →
          (∃ t ∈ info.ctrl_if.input_term_descs, t.bTerminalID = lbyte buffer 1) →
          uvc_process_status_xfer info buffer actual_length =
            some { status_class := some .control_camera, event := lbyte buffer 2,
                   selector := lbyte buffer 3, attr := some (lbyte buffer 4),
                   data := some ((List.range (actual_length - 5)).map fun j => lbyte buffer (5 + j)),
                   data_len := actual_length - 5 })) := by
  intro info buffer len
  refine ⟨fun h4 => ?_, fun hclass => ⟨fun hdrop => ?_, fun h5 horig hev hex => ?_⟩⟩
  · unfold uvc_process_status_xfer
    rw [if_pos h4]
  · unfold uvc_process_status_xfer
    by_cases h4 : len < 4
    · rw [if_pos h4]
    rw [if_neg h4, if_pos hclass]
    by_cases h5 : len < 5
    · rw [if_pos h5]
    rw [if_neg h5]
    rcases hdrop with h5x | horig | hev | ⟨hIT, hPU⟩
    · exact absurd h5x h5
    · rw [if_pos horig]
    · by_cases horig : lbyte buffer 1 = 0
      · rw [if_pos horig]
      · rw [if_neg horig, if_pos hev]
    · by_cases horig : lbyte buffer 1 = 0
      · rw [if_pos horig]
      by_cases hev : lbyte buffer 2 ≠ 0
      · rw [if_neg horig, if_pos hev]
      rw [if_neg horig, if_neg hev]
      have hf1 : info.ctrl_if.input_term_descs.find?
          (fun input_terminal => input_terminal.bTerminalID == lbyte buffer 1) = none :=
        List.find?_eq_none.mpr fun x hx => by simpa using hIT x hx
      have hf2 : info.ctrl_if.processing_unit_descs.find?
          (fun processing_unit => processing_unit.bUnitID == lbyte buffer 1) = none :=
        List.find?_eq_none.mpr fun x hx => by simpa using hPU x hx
      rw [hf1, hf2]
  · unfold uvc_process_status_xfer
    rw [if_neg (by omega), if_pos hclass, if_neg (by omega), if_neg horig,
      if_neg (by simp [hev])]
    obtain ⟨t, htmem, htid⟩ := hex
    have hsome : (info.ctrl_if.input_term_descs.find?
        (fun input_terminal => input_terminal.bTerminalID == lbyte buffer 1)).isSome :=
      List.find?_isSome.mpr ⟨t, htmem, by simp [htid]⟩
    obtain ⟨t0, hf⟩ := Option.isSome_iff_exists.mp hsome
    rw [hf]

/-- Witness for C2, the status-dispatch scenario of the spec: with input
terminals of ids 1 and 2 retained, the packet 01 02 00 05 AA DD EE invokes
the callback with class CONTROL_CAMERA, event 0, selector 5, attribute 0xAA,
data DD EE and data_len 2. -/
theorem process_status_xfer_class1_witness :
    uvc_process_status_xfer info_two_terminals status_packet_ex 7 =
      some { status_class := some .control_camera, event := 0, selector := 5,
             attr := some 0xaa, data := some [0xdd, 0xee], data_len := 2 } := by
  have h := (process_status_xfer_class1_dispatch info_two_terminals status_packet_ex 7).2
    (by decide) |>.2 (by norm_num) (by decide) (by decide)
    ⟨{ bTerminalID := 2, wTerminalType := 0x0201, wObjectiveFocalLengthMin := 0,
       wObjectiveFocalLengthMax := 0, wOcularFocalLength := 0, bmControls := 0 },
     by decide, by decide⟩
  rw [h]
  decide

/-- C7: the frame descriptor built by uvc_parse_vs_frame_uncompressed holds
exactly one interval representation.  With block[25] = 0 the continuous
triple is read as little-endian u32 at offsets 26, 30, 34 and the table is
null; with n = block[25] greater than 0 the table holds exactly the n
little-endian u32 values from offset 26 followed by one 0 sentinel and the
triple stays unset; the table is null exactly when block[25] = 0; and when
the interface has a format the parse appends this frame to the last format. -/
theorem frame_uncompressed_interval_representations :
    ∀ block : Nat → Nat,
      (lbyte block 25 = 0 →
        (frame_from_block block).intervals = none ∧
        (frame_from_block block).dwMinFrameInterval = DW_TO_INT block 26 ∧
        (frame_from_block block).dwMaxFrameInterval = DW_TO_INT block 30 ∧
        (frame_from_block block).dwFrameIntervalStep = DW_TO_INT block 34) ∧
      (0 < lbyte block 25 →
        (frame_from_block block).intervals =
          some (((List.range (lbyte block 25)).map fun j => DW_TO_INT block (26 + 4 * j)) ++ [0]) ∧
        (frame_from_block block).dwMinFrameInterval = 0 ∧
        (frame_from_block block).dwMaxFrameInterval = 0 ∧
        (frame_from_block block).dwFrameIntervalStep = 0) ∧
      ((frame_from_block block).intervals = none ↔ lbyte block 25 = 0) ∧
      (∀ stream_if : uvc_streaming_interface, stream_if.format_descs ≠ [] →
        ∃ stream_if1,
          uvc_parse_vs_frame_uncompressed stream_if block (lbyte block 0) =
            some (.success, stream_if1) ∧
          stream_if1.format_descs.getLast?.map (fun f => f.frame_descs.getLast?) =
            some (some (frame_from_block block))) := by
  intro block
  refine ⟨fun h0 => ?_, fun hpos => ?_, ?_, fun stream_if hne => ?_⟩
  · simp [frame_from_block, h0]
  · have h0 : ¬ lbyte block 25 = 0 := by omega
    simp [frame_from_block, h0]
  · by_cases h0 : lbyte block 25 = 0 <;> simp [frame_from_block, h0]
  · obtain ⟨format, hlast⟩ := Option.isSome_iff_exists.mp
      (by simpa [List.getLast?_eq_none_iff, Option.isSome_iff_ne_none] using hne :
        (stream_if.format_descs.getLast?).isSome)
    refine ⟨{ stream_if with format_descs :=
        stream_if.format_descs.dropLast ++
          [{ format with frame_descs := format.frame_descs ++ [frame_from_block block] }] },
      ?_, ?_⟩
    · unfold uvc_parse_vs_frame_uncompressed
      rw [hlast]
    · simp [List.getLast?_concat]

/-- Witness for C7, the discrete half of the frame-interval scenario of the
spec: a frame block with block[25] = 3 and interval values 333333, 400000,
500000 yields the table 333333, 400000, 500000, 0 and leaves the continuous
triple unset. -/
theorem frame_uncompressed_discrete_witness :
    (frame_from_block block_frame_discrete).intervals =
      some [333333, 400000, 500000, 0] ∧
    (frame_from_block block_frame_discrete).dwMinFrameInterval = 0 ∧
    (frame_from_block block_frame_discrete).dwMaxFrameInterval = 0 ∧
    (frame_from_block block_frame_discrete).dwFrameIntervalStep = 0 := by
  have h := ((frame_uncompressed_interval_representations block_frame_discrete).2.1
    (by decide))
  exact ⟨h.1.trans (by decide), h.2.1, h.2.2.1, h.2.2.2⟩

theorem shl8_lor_eq_add (a b : Nat) (hb : b < 256) : (a <<< 8) ||| b = a <<< 8 + b := by
  have hb8 : b < 2 ^ 8 := by omega
  apply Nat.eq_of_testBit_eq
  intro j
  rw [Nat.testBit_lor, Nat.testBit_shiftLeft]
  have hadd : a <<< 8 + b = 2 ^ 8 * a + b := by rw [Nat.shiftLeft_eq]; ring
  rw [hadd, Nat.testBit_mul_pow_two_add a hb8 j]
  by_cases hj : j < 8
  · have h8 : ¬ (8 ≤ j) := by omega
    simp [h8, hj]
  · have h8 : 8 ≤ j := by omega
    have hbj : b.testBit j = false :=
      Nat.testBit_lt_two_pow (lt_of_lt_of_le hb8 (Nat.pow_le_pow_right (by norm_num) h8))
    simp [h8, hj, hbj]

theorem foldr_controls_acc (xs : List Nat) (hxs : ∀ y ∈ xs, y < 256) (c : Nat) :
    xs.foldr (fun b acc => (acc <<< 8) ||| b) c =
      controls_spec_fold xs + c * 256 ^ xs.length := by
  induction xs with
  | nil => simp [controls_spec_fold]
  | cons y ys ih =>
    have hy : y < 256 := hxs y (by simp)
    have hys : ∀ z ∈ ys, z < 256 := fun z hz => hxs z (by simp [hz])
    simp only [List.foldr_cons, controls_spec_fold, List.length_cons]
    rw [ih hys, shl8_lor_eq_add _ _ hy, shl8_lor_eq_add _ _ hy]
    simp only [controls_spec_fold]
    rw [Nat.shiftLeft_eq, Nat.shiftLeft_eq]
    have h8 : (2 : Nat) ^ 8 = 256 := by norm_num
    rw [h8, pow_succ]
    ring

theorem controls_spec_fold_concat (xs : List Nat) (hxs : ∀ y ∈ xs, y < 256) (x : Nat) :
    controls_spec_fold (xs ++ [x]) = controls_spec_fold xs + x * 256 ^ xs.length := by
  unfold controls_spec_fold
  rw [List.foldr_append]
  simp only [List.foldr_cons, List.foldr_nil, Nat.zero_shiftLeft, Nat.zero_or]
  exact foldr_controls_acc xs hxs x

theorem bm_fold_eq_spec (block : Nat → Nat) :
    ∀ (k lo acc : Nat), k ≤ 8 → acc < 256 ^ (8 - k) →
      bm_fold block k (lo + k - 1) acc =
        acc * 256 ^ k +
          controls_spec_fold ((List.range k).map fun j => lbyte block (lo + j)) := by
  intro k
  induction k with
  | zero =>
    intro lo acc _ _
    simp [bm_fold, controls_spec_fold]
  | succ k ih =>
    intro lo acc hk hacc
    have hidx : lo + (k + 1) - 1 = lo + k := by omega
    rw [hidx]
    show bm_fold block (k + 1) (lo + k) acc = _
    simp only [bm_fold]
    have hB : lbyte block (lo + k) < 256 := lbyte_lt block (lo + k)
    have hpow : 256 ^ (7 - k) * 256 = 256 ^ (8 - k) := by
      rw [← pow_succ]
      congr 1
      omega
    have hacc7 : acc < 256 ^ (7 - k) := by
      have : 8 - (k + 1) = 7 - k := by omega
      rwa [this] at hacc
    have hacc1 : lbyte block (lo + k) + acc <<< 8 < 256 ^ (8 - k) := by
      rw [Nat.shiftLeft_eq]
      calc lbyte block (lo + k) + acc * 2 ^ 8 < (acc + 1) * 256 := by
            have : (acc + 1) * 256 = acc * 2 ^ 8 + 256 := by norm_num; ring
            omega
        _ ≤ 256 ^ (7 - k) * 256 := Nat.mul_le_mul_right 256 hacc7
        _ = 256 ^ (8 - k) := hpow
    have hacc64 : lbyte block (lo + k) + acc <<< 8 < 2 ^ 64 := by
      calc lbyte block (lo + k) + acc <<< 8 < 256 ^ (8 - k) := hacc1
        _ ≤ 256 ^ 8 := Nat.pow_le_pow_right (by norm_num) (by omega)
        _ = 2 ^ 64 := by norm_num
    rw [Nat.mod_eq_of_lt hacc64]
    rw [ih lo (lbyte block (lo + k) + acc <<< 8) (by omega) hacc1]
    rw [List.range_succ, List.map_append]
    simp only [List.map_cons, List.map_nil]
    rw [controls_spec_fold_concat _ (by
      intro y hy
      simp only [List.mem_map, List.mem_range] at hy
      obtain ⟨j, _, hj⟩ := hy
      rw [← hj]
      exact lbyte_lt block (lo + j))]
    simp only [List.map_cons, List.map_nil, List.length_map, List.length_range]
    rw [Nat.shiftLeft_eq]
    have h8 : (2 : Nat) ^ 8 = 256 := by norm_num
    rw [h8, pow_succ]
    ring

/-- C6: the bmControls recorded for a camera input terminal equals the
specified byte fold over the n = block[14] controls bytes at offsets
15 .. 14 + n, iterated from the last byte down with each step shifting the
accumulator left by 8 and merging the byte (for n at most 8, the 64-bit
width); the same accumulation holds for processing units (length block[7],
bytes from offset 8) and extension units (pin count p = block[21], length
block[22+p], bytes from offset 23+p); and the concrete controls bytes
0x01 0x02 of the spec scenario yield bmControls 0x0201. -/
theorem controls_bitmap_big_endian_fold :
    (∀ block : Nat → Nat,
      (lbyte block 14 ≤ 8 →
        (input_terminal_from_block block).bmControls =
          controls_spec_fold ((List.range (lbyte block 14)).map fun j => lbyte block (15 + j))) ∧
      (lbyte block 7 ≤ 8 →
        (processing_unit_from_block block).bmControls =
          controls_spec_fold ((List.range (lbyte block 7)).map fun j => lbyte block (8 + j))) ∧
      (lbyte block (22 + lbyte block 21) ≤ 8 →
        (extension_unit_from_block block).bmControls =
          controls_spec_fold ((List.range (lbyte block (22 + lbyte block 21))).map
            fun j => lbyte block (23 + lbyte block 21 + j)))) ∧
    (input_terminal_from_block block_controls_ex).bmControls = 0x0201 := by
  constructor
  · intro block
    refine ⟨fun h14 => ?_, fun h7 => ?_, fun hxu => ?_⟩
    · show bm_fold block (lbyte block 14) (14 + lbyte block 14) 0 = _
      have hidx : 14 + lbyte block 14 = 15 + lbyte block 14 - 1 := by omega
      rw [hidx, bm_fold_eq_spec block (lbyte block 14) 15 0 h14 (Nat.pos_pow_of_pos _ (by norm_num))]
      simp
    · show bm_fold block (lbyte block 7) (7 + lbyte block 7) 0 = _
      have hidx : 7 + lbyte block 7 = 8 + lbyte block 7 - 1 := by omega
      rw [hidx, bm_fold_eq_spec block (lbyte block 7) 8 0 h7 (Nat.pos_pow_of_pos _ (by norm_num))]
      simp
    · show bm_fold block (lbyte block (22 + lbyte block 21))
          (22 + lbyte block 21 + lbyte block (22 + lbyte block 21)) 0 = _
      have hidx : 22 + lbyte block 21 + lbyte block (22 + lbyte block 21) =
          23 + lbyte block 21 + lbyte block (22 + lbyte block 21) - 1 := by omega
      rw [hidx, bm_fold_eq_spec block (lbyte block (22 + lbyte block 21))
        (23 + lbyte block 21) 0 hxu (Nat.pos_pow_of_pos _ (by norm_num))]
      simp
  · decide

/-- Witness for C6: applied to the concrete camera input-terminal block with
controls length 2 and controls bytes 0x01 0x02, the recorded bmControls
equals the specified fold of those bytes, which is 0x0201. -/
theorem controls_bitmap_fold_witness :
    (input_terminal_from_block block_controls_ex).bmControls =
      controls_spec_fold ((List.range (lbyte block_controls_ex 14)).map
        fun j => lbyte block_controls_ex (15 + j)) ∧
    controls_spec_fold ((List.range (lbyte block_controls_ex 14)).map
      fun j => lbyte block_controls_ex (15 + j)) = 0x0201 := by
  refine ⟨(controls_bitmap_big_endian_fold.1 block_controls_ex).1 (by decide), by decide⟩

/-- C3: whenever uvc_open fails after libusb_open succeeded (device-info
build, interface claim, transfer allocation or transfer submission), the fail
path runs uvc_release_ifs, libusb_close, uvc_unref_device and uvc_free_devh
in that order, publishes no handle, leaves open_devices without a new entry
and restores the device reference count to its pre-open value. -/
theorem open_rollback_on_failure :
    ∀ (env : uvc_open_env) (st : uvc_context_state)
      (r : uvc_error × uvc_context_state × Option uvc_device_handle × List open_fail_action),
      env.openRes = .success →
      uvc_open env st = some r →
      r.1 ≠ .success →
      r.2.2.2 = open_fail_cleanup ∧ r.2.1.open_devices = st.open_devices ∧
        r.2.1.devRef = st.devRef ∧ r.2.2.1 = none := by
  intro env st r hopen heq hfail
  simp only [uvc_open, hopen, ne_eq, not_true_eq_false, if_false] at heq
  cases hinfo : uvc_get_device_info env.fuel env.configRes with
  | none =>
    rw [hinfo] at heq
    exact absurd heq (by simp)
  | some exc =>
    rw [hinfo] at heq
    cases exc with
    | error e =>
      obtain rfl := Option.some.inj heq
      exact ⟨rfl, rfl, by simp, rfl⟩
    | ok info =>
      dsimp only at heq
      by_cases hclaim : env.claimRes = .success
      · rw [if_neg (by simp [hclaim])] at heq
        by_cases hep : info.ctrl_if.bEndpointAddress ≠ 0
        · rw [if_pos hep] at heq
          by_cases halloc : env.allocOk = false
          · rw [if_pos halloc] at heq
            obtain rfl := Option.some.inj heq
            exact ⟨rfl, rfl, by simp, rfl⟩
          · rw [if_neg halloc] at heq
            by_cases hsub : env.submitRes = .success
            · rw [if_neg (by simp [hsub])] at heq
              obtain rfl := Option.some.inj heq
              exact absurd rfl hfail
            · rw [if_pos hsub] at heq
              obtain rfl := Option.some.inj heq
              exact ⟨rfl, rfl, by simp, rfl⟩
        · rw [if_neg hep] at heq
          obtain rfl := Option.some.inj heq
          exact absurd rfl hfail
      · rw [if_pos hclaim] at heq
        obtain rfl := Option.some.inj heq
        exact ⟨rfl, rfl, by simp, rfl⟩

/-- Witness for C3: an open whose config-descriptor fetch fails returns the
IO error, runs the four cleanup calls and leaves the state exactly as before
the open. -/
theorem open_rollback_witness :
    uvc_open env_fail_info st0 = some open_fail_result ∧
    (open_fail_result.2.2.2 = open_fail_cleanup ∧
     open_fail_result.2.1.open_devices = st0.open_devices ∧
     open_fail_result.2.1.devRef = st0.devRef ∧
     open_fail_result.2.2.1 = none) :=
  ⟨by decide,
   open_rollback_on_failure env_fail_info st0 open_fail_result (by decide) (by decide) (by decide)⟩

theorem parse_vs_ret_success (stream_if : uvc_streaming_interface) (block : Nat → Nat)
    (bs : Nat) (e : uvc_error) (s1 : uvc_streaming_interface)
    (h : uvc_parse_vs stream_if block bs = some (e, s1)) : e = .success := by
  unfold uvc_parse_vs at h
  split_ifs at h
  · have := congrArg Prod.fst (Option.some.inj h)
    simpa [uvc_parse_vs_input_header] using this.symm
  · have := congrArg Prod.fst (Option.some.inj h)
    simpa [uvc_parse_vs_format_uncompressed] using this.symm
  · unfold uvc_parse_vs_frame_uncompressed at h
    rcases hg : stream_if.format_descs.getLast? with _ | f
    · rw [hg] at h
      exact Option.noConfusion h
    · rw [hg] at h
      have := congrArg Prod.fst (Option.some.inj h)
      simpa using this.symm
  · have := congrArg Prod.fst (Option.some.inj h)
    simpa using this.symm

theorem scan_streaming_loop_ret_success :
    ∀ (fuel : Nat) (stream_if : uvc_streaming_interface) (buffer : Nat → Nat)
      (left : Nat) (e : uvc_error) (s1 : uvc_streaming_interface),
      uvc_scan_streaming_loop fuel stream_if buffer left = some (e, s1) → e = .success := by
  intro fuel
  induction fuel with
  | zero =>
    intro stream_if buffer left e s1 h
    exact Option.noConfusion h
  | succ n ih =>
    intro stream_if buffer left e s1 h
    unfold uvc_scan_streaming_loop at h
    by_cases h3 : left < 3
    · rw [if_pos h3] at h
      exact (Prod.mk.inj (Option.some.inj h)).1.symm
    · rw [if_neg h3] at h
      dsimp only at h
      rcases hp : uvc_parse_vs stream_if buffer (lbyte buffer 0) with _ | ⟨pe, s2⟩
      · rw [hp] at h
        exact Option.noConfusion h
      · rw [hp] at h
        dsimp only at h
        have hpe : pe = .success := parse_vs_ret_success _ _ _ _ _ hp
        rw [if_neg (by simp [hpe])] at h
        exact ih _ _ _ _ _ h

theorem scan_streaming_ret_ctrl :
    ∀ (fuel : Nat) (config : libusb_config_descriptor) (info : uvc_device_info)
      (k : Nat) (e : uvc_error) (info1 : uvc_device_info),
      uvc_scan_streaming fuel config info k = some (e, info1) →
      e = .success ∧ info1.ctrl_if = info.ctrl_if := by
  intro fuel config info k e info1 h
  unfold uvc_scan_streaming at h
  rcases hg : config.interfaces.get? k with _ | intf
  · rw [hg] at h
    exact Option.noConfusion h
  rw [hg] at h
  dsimp only at h
  rcases hh : intf.altsetting.head? with _ | d
  · rw [hh] at h
    exact Option.noConfusion h
  rw [hh] at h
  dsimp only at h
  rcases hl : uvc_scan_streaming_loop fuel
      { bInterfaceNumber := d.bInterfaceNumber, bEndpointAddress := 0,
        bTerminalLink := 0, format_descs := [] } d.extra d.extra_length with _ | ⟨ret, s1⟩
  · rw [hl] at h
    exact Option.noConfusion h
  · rw [hl] at h
    dsimp only at h
    obtain ⟨rfl, rfl⟩ := Prod.mk.inj (Option.some.inj h)
    exact ⟨scan_streaming_loop_ret_success _ _ _ _ _ _ hl, rfl⟩

theorem header_loop_ret_ctrl :
    ∀ (rem fuel : Nat) (config : libusb_config_descriptor) (block : Nat → Nat)
      (i : Nat) (info : uvc_device_info) (e : uvc_error) (info1 : uvc_device_info),
      uvc_parse_vc_header_loop fuel config block i rem info = some (e, info1) →
      e = .success ∧ info1.ctrl_if = info.ctrl_if := by
  intro rem
  induction rem with
  | zero =>
    intro fuel config block i info e info1 h
    obtain ⟨rfl, rfl⟩ := Prod.mk.inj (Option.some.inj h)
    exact ⟨rfl, rfl⟩
  | succ rem ih =>
    intro fuel config block i info e info1 h
    unfold uvc_parse_vc_header_loop at h
    rcases hs : uvc_scan_streaming fuel config info (lbyte block i) with _ | ⟨sr, info2⟩
    · rw [hs] at h
      exact Option.noConfusion h
    · rw [hs] at h
      dsimp only at h
      obtain ⟨hsr, hctrl⟩ := scan_streaming_ret_ctrl _ _ _ _ _ _ hs
      rw [if_neg (by simp [hsr])] at h
      obtain ⟨he, hc⟩ := ih _ _ _ _ _ _ _ h
      exact ⟨he, hc.trans hctrl⟩

theorem parse_vc_header_characterisation (fuel : Nat) (config : libusb_config_descriptor)
    (info : uvc_device_info) (block : Nat → Nat) (bs : Nat) :
    (SW_TO_SHORT block 3 ∉ bcdUVC_whitelist →
      uvc_parse_vc_header fuel config info block bs =
        some (.not_supported,
          { info with ctrl_if := { info.ctrl_if with bcdUVC := SW_TO_SHORT block 3 } })) ∧
    (∀ (e : uvc_error) (info1 : uvc_device_info),
      uvc_parse_vc_header fuel config info block bs = some (e, info1) →
      info1.ctrl_if.bcdUVC = SW_TO_SHORT block 3 ∧
      (e = .not_supported ↔ SW_TO_SHORT block 3 ∉ bcdUVC_whitelist)) := by
  have hmem : SW_TO_SHORT block 3 ∈ bcdUVC_whitelist ↔
      (SW_TO_SHORT block 3 = 0x0100 ∨ SW_TO_SHORT block 3 = 0x010a ∨
        SW_TO_SHORT block 3 = 0x0110) := by
    simp [bcdUVC_whitelist]
  constructor
  · intro hout
    unfold uvc_parse_vc_header
    dsimp only
    rw [if_neg (fun hc => hout (hmem.mpr hc))]
  · intro e info1 h
    unfold uvc_parse_vc_header at h
    dsimp only at h
    by_cases hin : SW_TO_SHORT block 3 = 0x0100 ∨ SW_TO_SHORT block 3 = 0x010a ∨
        SW_TO_SHORT block 3 = 0x0110
    · rw [if_pos hin] at h
      obtain ⟨he, hc⟩ := header_loop_ret_ctrl _ _ _ _ _ _ _ _ h
      constructor
      · rw [hc]
      · exact iff_of_false (by simp [he]) (by simpa using hmem.mpr hin)
    · rw [if_neg hin] at h
      obtain ⟨rfl, rfl⟩ := Prod.mk.inj (Option.some.inj h)
      exact ⟨rfl, iff_of_true rfl (fun hm => hin (hmem.mp hm))⟩

theorem parse_vc_success_preserves_bcd_ok :
    ∀ (fuel : Nat) (config : libusb_config_descriptor) (info : uvc_device_info)
      (block : Nat → Nat) (bs : Nat) (info1 : uvc_device_info),
      uvc_parse_vc fuel config info block bs = some (some .success, info1) →
      bcd_ok info → bcd_ok info1 := by
  intro fuel config info block bs info1 h hok
  unfold uvc_parse_vc at h
  by_cases h36 : lbyte block 1 ≠ 36
  · rw [if_pos h36] at h
    obtain ⟨-, rfl⟩ := Prod.mk.inj (Option.some.inj h)
    exact hok
  rw [if_neg h36] at h
  by_cases hH : lbyte block 2 = UVC_VC_HEADER
  · rw [if_pos hH] at h
    rcases hh : uvc_parse_vc_header fuel config info block bs with _ | ⟨e, i1⟩
    · rw [hh] at h
      exact Option.noConfusion h
    · rw [hh] at h
      dsimp only at h
      obtain ⟨h1, rfl⟩ := Prod.mk.inj (Option.some.inj h)
      have he : e = .success := Option.some.inj h1
      obtain ⟨hbcd, hiff⟩ := (parse_vc_header_characterisation fuel config info block bs).2 e i1 hh
      have hwl : SW_TO_SHORT block 3 ∈ bcdUVC_whitelist := by
        by_contra hnot
        exact (by simp [he] : ¬ e = .not_supported) (hiff.mpr hnot)
      exact Or.inr (by rw [hbcd]; exact hwl)
  rw [if_neg hH] at h
  by_cases hIT : lbyte block 2 = UVC_VC_INPUT_TERMINAL
  · rw [if_pos hIT] at h
    unfold uvc_parse_vc_input_terminal at h
    by_cases hcam : SW_TO_SHORT block 4 ≠ UVC_ITT_CAMERA
    · rw [if_pos hcam] at h
      exact Option.noConfusion (Prod.mk.inj (Option.some.inj h)).1
    · rw [if_neg hcam] at h
      obtain ⟨-, rfl⟩ := Prod.mk.inj (Option.some.inj h)
      exact hok
  rw [if_neg hIT] at h
  by_cases hOT : lbyte block 2 = UVC_VC_OUTPUT_TERMINAL
  · rw [if_pos hOT] at h
    obtain ⟨-, rfl⟩ := Prod.mk.inj (Option.some.inj h)
    exact hok
  rw [if_neg hOT] at h
  by_cases hSU : lbyte block 2 = UVC_VC_SELECTOR_UNIT
  · rw [if_pos hSU] at h
    obtain ⟨-, rfl⟩ := Prod.mk.inj (Option.some.inj h)
    exact hok
  rw [if_neg hSU] at h
  by_cases hPU : lbyte block 2 = UVC_VC_PROCESSING_UNIT
  · rw [if_pos hPU] at h
    obtain ⟨-, rfl⟩ := Prod.mk.inj (Option.some.inj h)
    exact hok
  rw [if_neg hPU] at h
  by_cases hXU : lbyte block 2 = UVC_VC_EXTENSION_UNIT
  · rw [if_pos hXU] at h
    obtain ⟨-, rfl⟩ := Prod.mk.inj (Option.some.inj h)
    exact hok
  · rw [if_neg hXU] at h
    exact absurd (Option.some.inj (Prod.mk.inj (Option.some.inj h)).1) (by simp)

theorem scan_control_loop_preserves_bcd_ok :
    ∀ (fuel : Nat) (config : libusb_config_descriptor) (info : uvc_device_info)
      (buffer : Nat → Nat) (left : Nat) (info1 : uvc_device_info),
      uvc_scan_control_loop fuel config info buffer left = some (.success, info1) →
      bcd_ok info → bcd_ok info1 := by
  intro fuel
  induction fuel with
  | zero =>
    intro config info buffer left info1 h
    exact Option.noConfusion h
  | succ n ih =>
    intro config info buffer left info1 h hok
    unfold uvc_scan_control_loop at h
    by_cases h3 : left < 3
    · rw [if_pos h3] at h
      obtain ⟨-, rfl⟩ := Prod.mk.inj (Option.some.inj h)
      exact hok
    · rw [if_neg h3] at h
      dsimp only at h
      rcases hp : uvc_parse_vc n config info buffer (lbyte buffer 0) with _ | ⟨oe, i1⟩
      · rw [hp] at h
        exact Option.noConfusion h
      rcases oe with _ | pe
      · rw [hp] at h
        exact Option.noConfusion h
      · rw [hp] at h
        dsimp only at h
        by_cases hpe : pe = .success
        · subst hpe
          rw [if_neg (by simp)] at h
          exact ih _ _ _ _ _ h (parse_vc_success_preserves_bcd_ok _ _ _ _ _ _ hp hok)
        · rw [if_pos (by simp [hpe])] at h
          exact absurd (Prod.mk.inj (Option.some.inj h)).1 hpe

theorem scan_control_success_bcd_ok :
    ∀ (fuel : Nat) (config : libusb_config_descriptor) (info1 : uvc_device_info),
      uvc_scan_control fuel config uvc_device_info.empty = some (.success, info1) →
      bcd_ok info1 := by
  intro fuel config info1 h
  unfold uvc_scan_control at h
  rcases hf : find_vc_interface config.interfaces with _ | od
  · rw [hf] at h
    exact Option.noConfusion h
  rcases od with _ | d
  · rw [hf] at h
    exact absurd (Prod.mk.inj (Option.some.inj h)).1 (by simp)
  · rw [hf] at h
    dsimp only at h
    by_cases hep : d.endpoints.length ≠ 0
    · rw [if_pos hep] at h
      exact scan_control_loop_preserves_bcd_ok _ _ _ _ _ _ h (Or.inl rfl)
    · rw [if_neg hep] at h
      exact scan_control_loop_preserves_bcd_ok _ _ _ _ _ _ h (Or.inl rfl)

theorem get_device_info_ok_bcd :
    ∀ (fuel : Nat) (configRes : Option libusb_config_descriptor) (info : uvc_device_info),
      uvc_get_device_info fuel configRes = some (.ok info) → bcd_ok info := by
  intro fuel configRes info h
  unfold uvc_get_device_info at h
  rcases configRes with _ | config
  · exact Except.noConfusion (Option.some.inj h)
  · dsimp only at h
    rcases hs : uvc_scan_control fuel config uvc_device_info.empty with _ | ⟨ret, i⟩
    · rw [hs] at h
      exact Option.noConfusion h
    · rw [hs] at h
      dsimp only at h
      by_cases hret : ret = .success
      · subst hret
        rw [if_neg (by simp)] at h
        exact (Except.ok.inj (Option.some.inj h)) ▸ scan_control_success_bcd_ok _ _ _ hs
      · rw [if_pos (by simp [hret])] at h
        exact Except.noConfusion (Option.some.inj h)

theorem uvc_open_success_bcd :
    ∀ (env : uvc_open_env) (st : uvc_context_state) (e : uvc_error)
      (st1 : uvc_context_state) (hdl : uvc_device_handle) (tr : List open_fail_action),
      uvc_open env st = some (e, st1, some hdl, tr) → e = .success →
      bcd_ok hdl.info := by
  intro env st e st1 hdl tr heq he
  by_cases hop : env.openRes = .success
  · simp only [uvc_open, hop, ne_eq, not_true_eq_false, if_false] at heq
    rcases hinfo : uvc_get_device_info env.fuel env.configRes with _ | exc
    · rw [hinfo] at heq
      exact Option.noConfusion heq
    rcases exc with e1 | info
    · rw [hinfo] at heq
      dsimp only at heq
      injection heq with h1
      injection h1 with h2 h3
      injection h3 with h4 h5
      injection h5 with h6 h7
      exact Option.noConfusion h6
    · rw [hinfo] at heq
      dsimp only at heq
      by_cases hclaim : env.claimRes = .success
      · rw [if_neg (by simp [hclaim])] at heq
        by_cases hep : info.ctrl_if.bEndpointAddress ≠ 0
        · rw [if_pos hep] at heq
          by_cases halloc : env.allocOk = false
          · rw [if_pos halloc] at heq
            injection heq with h1
            injection h1 with h2 h3
            injection h3 with h4 h5
            injection h5 with h6 h7
            exact Option.noConfusion h6
          · rw [if_neg halloc] at heq
            by_cases hsub : env.submitRes = .success
            · rw [if_neg (by simp [hsub])] at heq
              injection heq with h1
              injection h1 with h2 h3
              injection h3 with h4 h5
              injection h5 with h6 h7
              injection h6 with h8
              subst h8
              exact get_device_info_ok_bcd _ _ _ hinfo
            · rw [if_pos hsub] at heq
              injection heq with h1
              injection h1 with h2 h3
              injection h3 with h4 h5
              injection h5 with h6 h7
              exact Option.noConfusion h6
        · rw [if_neg hep] at heq
          injection heq with h1
          injection h1 with h2 h3
          injection h3 with h4 h5
          injection h5 with h6 h7
          injection h6 with h8
          subst h8
          exact get_device_info_ok_bcd _ _ _ hinfo
      · rw [if_pos hclaim] at heq
        injection heq with h1
        injection h1 with h2 h3
        injection h3 with h4 h5
        injection h5 with h6 h7
        exact Option.noConfusion h6
  · unfold uvc_open at heq
    rw [if_pos hop] at heq
    injection heq with h1
    injection h1 with h2 h3
    injection h3 with h4 h5
    injection h5 with h6 h7
    exact Option.noConfusion h6

/-- C8 (amended): parsing a VC_HEADER block records bcdUVC as the
little-endian u16 at offset 3 and fails with NOT_SUPPORTED exactly when that
value lies outside the whitelist 0x0100, 0x010A, 0x0110, which fails the
open; consequently every successfully-opened handle has bcdUVC in the
whitelist or still equal to its zero initialiser (the latter when the
VideoControl descriptor chain contained no VC_HEADER block). -/
theorem bcdUVC_whitelist_enforced :
    (∀ (fuel : Nat) (config : libusb_config_descriptor) (info : uvc_device_info)
      (block : Nat → Nat) (bs : Nat),
      SW_TO_SHORT block 3 ∉ bcdUVC_whitelist →
        uvc_parse_vc_header fuel config info block bs =
          some (.not_supported,
            { info with ctrl_if := { info.ctrl_if with bcdUVC := SW_TO_SHORT block 3 } })) ∧
    (∀ (fuel : Nat) (config : libusb_config_descriptor) (info : uvc_device_info)
      (block : Nat → Nat) (bs : Nat) (e : uvc_error) (info1 : uvc_device_info),
      uvc_parse_vc_header fuel config info block bs = some (e, info1) →
      info1.ctrl_if.bcdUVC = SW_TO_SHORT block 3 ∧
      (e = .not_supported ↔ SW_TO_SHORT block 3 ∉ bcdUVC_whitelist)) ∧
    (∀ (env : uvc_open_env) (st : uvc_context_state) (e : uvc_error)
      (st1 : uvc_context_state) (hdl : uvc_device_handle) (tr : List open_fail_action),
      uvc_open env st = some (e, st1, some hdl, tr) → e = .success →
      hdl.info.ctrl_if.bcdUVC = 0 ∨ hdl.info.ctrl_if.bcdUVC ∈ bcdUVC_whitelist) :=
  ⟨fun fuel config info block bs =>
      (parse_vc_header_characterisation fuel config info block bs).1,
   fun fuel config info block bs =>
      (parse_vc_header_characterisation fuel config info block bs).2,
   uvc_open_success_bcd⟩

/-- Counterexample for C8 as stated: a device whose VideoControl altsetting
has an empty extra blob opens successfully, yet the handle keeps the
zero-initialised bcdUVC = 0, which is outside the whitelist, so not every
successfully-opened handle has bcdUVC in the supported set. -/
theorem open_succeeds_with_bcd_zero :
    uvc_open env_no_header st0 =
      some (.success, { open_devices := [devh_empty], devRef := 2 }, some devh_empty, []) ∧
    devh_empty.info.ctrl_if.bcdUVC = 0 ∧
    devh_empty.info.ctrl_if.bcdUVC ∉ bcdUVC_whitelist :=
  ⟨by decide, rfl, by decide⟩

/-- Witness for C8: the VC_HEADER block advertising bcdUVC 0x0200 makes
uvc_parse_vc_header record 0x0200 and fail with NOT_SUPPORTED. -/
theorem parse_vc_header_unsupported_witness :
    uvc_parse_vc_header 0 cfg_zero_tlv uvc_device_info.empty block_bad_header 13 =
      some (.not_supported,
        { uvc_device_info.empty with ctrl_if :=
            { uvc_device_info.empty.ctrl_if with
                bcdUVC := SW_TO_SHORT block_bad_header 3 } }) :=
  bcdUVC_whitelist_enforced.1 0 cfg_zero_tlv uvc_device_info.empty block_bad_header 13
    (by decide)

end LibUvcModel
